import Mathlib

/-!
Verification of the MedaSync scheduling core (src/app.py, src/models.py).

The definitions below are a shallow embedding of the Python source:
pure helpers become Lean functions, database queries become functions
over an explicit `DB` value, and Python exceptions become `none` /
`Except.error` / dedicated `error` constructors.  ASCII digits are
modelled (the claims and all call sites only involve ASCII input).
-/

set_option maxRecDepth 4000

namespace MedaSync

/-- ASCII decimal digit test, as used by both `re`'s digit class and
`int()` for the inputs relevant here. -/
def digit? (c : Char) : Bool := 48 ≤ c.toNat && c.toNat ≤ 57

/-- Numeric value of an ASCII digit character. -/
def dval (c : Char) : Nat := c.toNat - 48

/-- Characters stripped by Python `int(str)` before parsing (ASCII whitespace). -/
def isPyWs (c : Char) : Bool :=
  c.toNat = 32 || c.toNat = 9 || c.toNat = 10 || c.toNat = 13 || c.toNat = 11 || c.toNat = 12

/-- Strip leading and trailing whitespace, as Python `int(str)` does. -/
def stripWs (cs : List Char) : List Char :=
  ((cs.dropWhile isPyWs).reverse.dropWhile isPyWs).reverse

/-- Digit run with Python's underscore grouping rule: an underscore must
stand between two digits (`1_0` is fine, `1__0`, `1_`, `_1` are not). -/
def digitsUnd : List Char → Nat → Option Nat
  | [], acc => some acc
  | c :: rest, acc =>
    if digit? c then digitsUnd rest (acc * 10 + dval c)
    else if c = '_' then
      match rest with
      | c2 :: rest2 => if digit? c2 then digitsUnd rest2 (acc * 10 + dval c2) else none
      | [] => none
    else none

/-- Unsigned part of Python `int(str)`: first character must be a digit. -/
def pyIntCore (cs : List Char) : Option Nat :=
  match cs with
  | c :: rest => if digit? c then digitsUnd rest (dval c) else none
  | [] => none

/-- Python `int(str)`: optional surrounding whitespace, optional sign,
then a digit run; `none` models the `ValueError` raised otherwise. -/
def pyInt (s : String) : Option Int :=
  match stripWs s.data with
  | [] => none
  | c :: rest =>
    if c = '+' then (pyIntCore rest).map Int.ofNat
    else if c = '-' then (pyIntCore rest).map (fun n => -(n : Int))
    else (pyIntCore (c :: rest)).map Int.ofNat

/-- Decimal rendering of a natural number (fuel-based so that it reduces
definitionally); `natDecimalAux (n+1) n` always has enough fuel. -/
def natDecimalAux : Nat → Nat → List Char
  | 0, _ => []
  | fuel + 1, n =>
    if n < 10 then [Nat.digitChar n]
    else natDecimalAux fuel (n / 10) ++ [Nat.digitChar (n % 10)]

/-- Decimal digits of a natural number, most significant first. -/
def natDecimal (n : Nat) : List Char := natDecimalAux (n + 1) n

/-- Left-pad a string with zeros to width `w` (no-op when already long enough). -/
def zfill (w : Nat) (s : String) : String :=
  String.mk (List.replicate (w - s.length) '0') ++ s

/-- Python `f"{n:03d}"`: decimal rendering zero-padded to a minimum total
width of 3 (the sign counts toward the width for negative numbers). -/
def pyFormat03d (n : Int) : String :=
  if n < 0 then "-" ++ zfill 2 (String.mk (natDecimal n.natAbs))
  else zfill 3 (String.mk (natDecimal n.natAbs))

/-- Value of a list of decimal digit characters, most significant first. -/
def natOfDigits (cs : List Char) : Nat :=
  cs.foldl (fun acc c => acc * 10 + dval c) 0

/-! ### strptime model

`datetime.strptime(s, "%Y-%m-%d %H:%M")` in CPython matches `%Y` against
exactly four digits, and `%m`, `%d`, `%H`, `%M` against a two-digit value in
range, falling back to a single digit in range; the resulting day is then
validated against the month length and the year must be at least 1. -/

/-- Match exactly four digits (CPython's `%Y`). -/
def matchY : List Char → Option (Nat × List Char)
  | a :: b :: c :: d :: rest =>
    if digit? a && digit? b && digit? c && digit? d then
      some (((dval a * 10 + dval b) * 10 + dval c) * 10 + dval d, rest)
    else none
  | _ => none

/-- Match a two-digit value in `[lo2, hi2]`, else a single digit in
`[lo1, hi1]` (the shape of CPython's `%m`, `%d`, `%H`, `%M` regexes). -/
def match2or1 (lo2 hi2 lo1 hi1 : Nat) (cs : List Char) : Option (Nat × List Char) :=
  match cs with
  | [] => none
  | a :: rest1 =>
    if digit? a then
      match rest1 with
      | b :: rest2 =>
        if digit? b && decide (lo2 ≤ dval a * 10 + dval b) && decide (dval a * 10 + dval b ≤ hi2) then
          some (dval a * 10 + dval b, rest2)
        else if decide (lo1 ≤ dval a) && decide (dval a ≤ hi1) then some (dval a, rest1)
        else none
      | [] => if lo1 ≤ dval a ∧ dval a ≤ hi1 then some (dval a, []) else none
    else none

/-- Gregorian leap-year rule (as in `datetime`). -/
def isLeap (y : Nat) : Bool := y % 4 == 0 && (y % 100 != 0 || y % 400 == 0)

/-- Number of days in a month (as validated by the `datetime` constructor). -/
def daysInMonth (y m : Nat) : Nat :=
  if m == 2 then (if isLeap y then 29 else 28)
  else if m == 4 || m == 6 || m == 9 || m == 11 then 30 else 31

/-- Parse `YYYY-MM-DD` as `datetime.strptime(s, "%Y-%m-%d")` does,
returning `(year, month, day)`; `none` models the raised `ValueError`. -/
def parseDate (s : String) : Option (Nat × Nat × Nat) :=
  match matchY s.data with
  | some (y, '-' :: r1) =>
    match match2or1 1 12 1 9 r1 with
    | some (m, '-' :: r2) =>
      match match2or1 1 31 1 9 r2 with
      | some (d, []) => if 1 ≤ y ∧ d ≤ daysInMonth y m then some (y, m, d) else none
      | _ => none
    | _ => none
  | _ => none

/-- Parse `HH:MM` as `strptime`'s `"%H:%M"` does, returning minutes
after midnight; `none` models the raised `ValueError`. -/
def parseTimeHM (s : String) : Option Nat :=
  match match2or1 0 23 0 9 s.data with
  | some (h, ':' :: r) =>
    match match2or1 0 59 0 9 r with
    | some (m, []) => some (h * 60 + m)
    | _ => none
  | _ => none

/-- Days since 1970-01-01 of a Gregorian date (standard civil-calendar
computation; all intermediate quantities are non-negative for `y ≥ 1`). -/
def daysFromCivil (y m d : Nat) : Int :=
  let y' := if m ≤ 2 then y - 1 else y
  let era := y' / 400
  let yoe := y' % 400
  let mp := (m + 9) % 12
  let doy := (153 * mp + 2) / 5 + d - 1
  let doe := yoe * 365 + yoe / 4 - yoe / 100 + doy
  (era * 146097 + doe : Int) - 719468

/-- Days since the epoch of a `YYYY-MM-DD` string, or `none` on a parse error. -/
def parseDateDays (s : String) : Option Int :=
  (parseDate s).map (fun p => daysFromCivil p.1 p.2.1 p.2.2)

/-- Minutes since the epoch of `strptime(f"{d} {t}", "%Y-%m-%d %H:%M")`
(the two fields are separated by the single mandatory space, so the
combined parse succeeds exactly when both fields parse). -/
def parseDateTimeMinutes (d t : String) : Option Int :=
  match parseDate d, parseTimeHM t with
  | some (y, m, dd), some mins => some (daysFromCivil y m dd * 1440 + mins)
  | _, _ => none

/-! ### Data model (src/models.py) -/

/-- Patient row.  Only the primary-key column is modelled: the remaining
columns (name, contact details, ...) do not influence the scheduling
logic verified here. -/
structure Patient where
  id : String
deriving DecidableEq

/-- Doctor row, modelled like `Patient`. -/
structure Doctor where
  id : String
deriving DecidableEq

/-- Appointment row: all columns that the scheduling logic reads or writes. -/
structure Appointment where
  id : String
  date : String
  time : String
  duration : Int
  diagnosis : String
  patient_id : String
  doctor_id : String
deriving DecidableEq

/-- The appointment id column is declared `db.String(4)` in src/models.py. -/
def appointmentIdColumnLength : Nat := 4

/-- The record store: the three tables reachable through the session. -/
structure DB where
  patients : List Patient
  doctors : List Doctor
  appointments : List Appointment
deriving DecidableEq

/-- `select(Patient).where(Patient.id == pid)` followed by `scalar_one_or_none`. -/
def getPatient (db : DB) (pid : String) : Option Patient :=
  db.patients.find? (fun p => p.id == pid)

/-- `select(Doctor).where(Doctor.id == did)` followed by `scalar_one_or_none`. -/
def getDoctor (db : DB) (did : String) : Option Doctor :=
  db.doctors.find? (fun d => d.id == did)

/-- `select(Appointment).where(Appointment.id == aid)` followed by
`scalar_one_or_none`. -/
def getAppointment (db : DB) (aid : String) : Option Appointment :=
  db.appointments.find? (fun a => a.id == aid)

/-- The doctor-side fetch in `is_doctor_available`: all appointments of
the doctor on the given date, with no result cap. -/
def getAppointmentsForDoctorOnDate (db : DB) (did d : String) : List Appointment :=
  db.appointments.filter (fun a => a.doctor_id == did && a.date == d)

/-- The patient-side fetch in `is_patient_available`: the patient's
appointments on the given date, capped by `.limit(100)`. -/
def getAppointmentsForPatientOnDate (db : DB) (pid d : String) : List Appointment :=
  (db.appointments.filter (fun a => a.patient_id == pid && a.date == d)).take 100

/-- `select(Appointment).order_by(Appointment.id.desc()).limit(1)`:
the largest appointment id under the store's bytewise string order. -/
def lastAppointmentId (db : DB) : Option String :=
  db.appointments.foldl
    (fun acc a =>
      match acc with
      | none => some a.id
      | some m => some (if m < a.id then a.id else m))
    none

/-! ### Helper functions (src/app.py) -/

/-- `generate_id(prefix, last_id)`: parses `int(last_id[1:])`, adds 1 and
formats with `f"{number:03d}"`; starts at 1 when `last_id` is falsy.
`Except.error ()` models the uncaught `ValueError` from `int()`. -/
def generate_id (pref : String) (last_id : Option String) : Except Unit String :=
  match last_id with
  | none => Except.ok (pref ++ pyFormat03d 1)
  | some s =>
    if s = "" then Except.ok (pref ++ pyFormat03d 1)
    else
      match pyInt (String.mk (s.data.drop 1)) with
      | none => Except.error ()
      | some n => Except.ok (pref ++ pyFormat03d (n + 1))

deriving instance DecidableEq for Except

/-- Python truthiness of an optional string (`None` and `""` are falsy). -/
def pyTruthy : Option String → Bool
  | none => false
  | some s => s ≠ ""

/-- The `exclude_appt_id and appointment.id == exclude_appt_id` guard:
an appointment is skipped only when the exclusion id is truthy and equal. -/
def excludeMatches (excl : Option String) (apptId : String) : Bool :=
  match excl with
  | none => false
  | some e => e ≠ "" && apptId == e

/-- Interval of a stored appointment, in minutes since the epoch:
`strptime(f"{a.date} {a.time}")` plus `timedelta(minutes=a.duration)`. -/
def parseApptStartEnd (a : Appointment) : Option (Int × Int) :=
  match parseDateTimeMinutes a.date a.time with
  | none => none
  | some s => some (s, s + a.duration)

/-- The `for appointment in appointments:` loop shared by both
availability checks: skip the excluded appointment, parse the stored
interval (`none` models the exception escaping the loop), return
`some false` on the first half-open overlap, `some true` when the list
is exhausted. -/
def availabilityLoop (candStart candEnd : Int) (excl : Option String) :
    List Appointment → Option Bool
  | [] => some true
  | a :: rest =>
    if excludeMatches excl a.id then availabilityLoop candStart candEnd excl rest
    else
      match parseApptStartEnd a with
      | none => none
      | some q =>
        if candStart < q.2 && candEnd > q.1 then some false
        else availabilityLoop candStart candEnd excl rest

/-- `is_doctor_available(doctor_id, appt_date, appt_time, duration,
exclude_appt_id)`; `none` models a raised parse exception. -/
def is_doctor_available (db : DB) (doctor_id appt_date appt_time : String)
    (duration : Int) (excl : Option String) : Option Bool :=
  match parseDateTimeMinutes appt_date appt_time with
  | none => none
  | some s => availabilityLoop s (s + duration) excl
      (getAppointmentsForDoctorOnDate db doctor_id appt_date)

/-- `is_patient_available(patient_id, appt_date, appt_time, duration,
exclude_appt_id)`; identical to the doctor check but over the capped fetch. -/
def is_patient_available (db : DB) (patient_id appt_date appt_time : String)
    (duration : Int) (excl : Option String) : Option Bool :=
  match parseDateTimeMinutes appt_date appt_time with
  | none => none
  | some s => availabilityLoop s (s + duration) excl
      (getAppointmentsForPatientOnDate db patient_id appt_date)

/-- `re.match(r'^\d\x7b2\x7d:\d\x7b2\x7d$', time_str)`: two digits, a
colon, two digits; `$` also tolerates one trailing newline. -/
def matchesHHMM (s : String) : Bool :=
  match s.data with
  | [a, b, c, d, e] => digit? a && digit? b && c = ':' && digit? d && digit? e
  | [a, b, c, d, e, f] => digit? a && digit? b && c = ':' && digit? d && digit? e && f = '\n'
  | _ => false

/-! ### Service endpoints (src/app.py) -/

/-- Outcome of the `/check_availability` endpoint: either a 400 response
with its JSON error code, or the availability JSON payload. -/
inductive CheckAvailResult where
  | badRequest (err : String)
  | ok (doctor_available patient_available : Bool)
deriving DecidableEq

/-- Resolution of the endpoint's duration field:
`int(duration) if duration is not None else 30`. -/
def resolveDuration : Option String → Option Int
  | none => some 30
  | some s => pyInt s

/-- The `check_availability` route: requires truthy date and time,
resolves the duration, and checks each supplied resource, mapping any
exception inside a check to `False` via the `try/except` blocks. -/
def check_availability (db : DB) (doctor_id patient_id date_str time_str duration : Option String) :
    CheckAvailResult :=
  if !pyTruthy date_str || !pyTruthy time_str then
    CheckAvailResult.badRequest "missing_date_or_time"
  else
    match resolveDuration duration with
    | none => CheckAvailResult.badRequest "invalid_duration"
    | some dur =>
      let d := date_str.getD ""
      let t := time_str.getD ""
      let doctor_ok :=
        match doctor_id with
        | none => true
        | some did => if did = "" then true else (is_doctor_available db did d t dur none).getD false
      let patient_ok :=
        match patient_id with
        | none => true
        | some pid => if pid = "" then true else (is_patient_available db pid d t dur none).getD false
      CheckAvailResult.ok doctor_ok patient_ok

/-- Rejection reasons of the booking validation path (the flash-message
outcomes of `add_appointment` / `edit_appointment`). -/
inductive BookingReason where
  | PatientNotFound
  | DoctorNotFound
  | PastDate
  | InvalidDuration
  | InvalidTimeFormat
  | DoctorUnavailable
  | PatientUnavailable
deriving DecidableEq

/-- Outcome of the `add_appointment` POST handler: a typed rejection
(re-rendered form with a flash message), a persisted booking, or an
uncaught exception (`error`). -/
inductive AddResult where
  | rejected (r : BookingReason)
  | booked (a : Appointment)
  | error
deriving DecidableEq

/-- The `add_appointment` POST handler (Create-mode booking).  `today`
is `date.today()` in days since the epoch.  The form's duration field is
converted with `int()` up front; every `strptime` / `int` failure after
that surfaces as `error`. -/
def add_appointment (db : DB) (today : Int)
    (date_str time_str duration_raw diagnosis patient_id doctor_id : String) : AddResult :=
  match pyInt duration_raw with
  | none => AddResult.error
  | some duration =>
    if (getPatient db patient_id).isNone then AddResult.rejected BookingReason.PatientNotFound
    else if (getDoctor db doctor_id).isNone then AddResult.rejected BookingReason.DoctorNotFound
    else
      match parseDateDays date_str with
      | none => AddResult.error
      | some dd =>
        if dd < today then AddResult.rejected BookingReason.PastDate
        else if duration ≤ 0 || duration > 240 then AddResult.rejected BookingReason.InvalidDuration
        else if !matchesHHMM time_str then AddResult.rejected BookingReason.InvalidTimeFormat
        else
          match is_doctor_available db doctor_id date_str time_str duration none with
          | none => AddResult.error
          | some false => AddResult.rejected BookingReason.DoctorUnavailable
          | some true =>
            match generate_id "A" (lastAppointmentId db) with
            | Except.error _ => AddResult.error
            | Except.ok newId =>
              AddResult.booked
                { id := newId, date := date_str, time := time_str, duration := duration,
                  diagnosis := diagnosis, patient_id := patient_id, doctor_id := doctor_id }

/-- Outcome of the `edit_appointment` POST handler: appointment lookup
failure, a typed rejection, the persisted replacement row, or an
uncaught exception (`error`). -/
inductive EditResult where
  | notFound
  | rejected (r : BookingReason)
  | updated (a : Appointment)
  | error
deriving DecidableEq

/-- The `edit_appointment` POST handler (Update-mode booking).  Loads
the appointment (`notFound` if absent), converts the duration with
`int()`, validates date/duration, then checks doctor and patient
availability with `exclude_appt_id = appointment_id`, and finally runs
the UPDATE.  There is no patient/doctor existence check and no
time-format check on this path. -/
def edit_appointment (db : DB) (today : Int) (appointment_id : String)
    (date_str time_str duration_raw diagnosis patient_id doctor_id : String) : EditResult :=
  if (getAppointment db appointment_id).isNone then EditResult.notFound
  else
    match pyInt duration_raw with
    | none => EditResult.error
    | some duration =>
      match parseDateDays date_str with
      | none => EditResult.error
      | some dd =>
        if dd < today then EditResult.rejected BookingReason.PastDate
        else if duration ≤ 0 || duration > 240 then EditResult.rejected BookingReason.InvalidDuration
        else
          match is_doctor_available db doctor_id date_str time_str duration (some appointment_id) with
          | none => EditResult.error
          | some false => EditResult.rejected BookingReason.DoctorUnavailable
          | some true =>
            match is_patient_available db patient_id date_str time_str duration (some appointment_id) with
            | none => EditResult.error
            | some false => EditResult.rejected BookingReason.PatientUnavailable
            | some true =>
              EditResult.updated
                { id := appointment_id, date := date_str, time := time_str, duration := duration,
                  diagnosis := diagnosis, patient_id := patient_id, doctor_id := doctor_id }

/-! ### Concrete stores used by witnesses and counterexamples -/

/-- A store with one booked appointment: doctor D001 and patient P001
are busy 09:00-09:30 on 2025-06-01; doctor D002 is free. -/
def dbOne : DB :=
  ⟨[⟨"P001"⟩], [⟨"D001"⟩, ⟨"D002"⟩], [⟨"A001", "2025-06-01", "09:00", 30, "flu", "P001", "D001"⟩]⟩

/-- A store whose only appointment has the malformed id `AXYZ` (on a
different date, so it never conflicts). -/
def dbMalformedId : DB :=
  ⟨[⟨"P001"⟩], [⟨"D001"⟩], [⟨"AXYZ", "2025-05-01", "09:00", 30, "", "P001", "D001"⟩]⟩

/-- An empty store. -/
def dbEmpty : DB := ⟨[], [], []⟩

/-- An appointment of patient P001 late on 2025-06-01 (23:59, 1 minute). -/
def apptLate : Appointment := ⟨"A001", "2025-06-01", "23:59", 1, "", "P001", "D001"⟩

/-- An appointment of patient P001 at midnight on 2025-06-01 (30 minutes). -/
def apptMidnight : Appointment := ⟨"A101", "2025-06-01", "00:00", 30, "", "P001", "D001"⟩

/-- A store where patient P001 has 101 appointments on 2025-06-01: the
100 fetched ones are all late in the day, and the 101st — dropped by the
`.limit(100)` cap — is at midnight. -/
def dbCapped : DB :=
  ⟨[⟨"P001"⟩], [⟨"D001"⟩], List.replicate 100 apptLate ++ [apptMidnight]⟩

/-- A store where patient P001 has exactly one (late) appointment. -/
def dbSolo : DB := ⟨[⟨"P001"⟩], [⟨"D001"⟩], [apptLate]⟩

/-! ### Helper lemmas about the availability loop -/

/-- When the exclusion id is not the empty string, the skip guard fires
exactly on the appointment whose id equals the exclusion id. -/
theorem excludeMatches_eq_false_iff (excl : Option String) (aid : String)
    (hexcl : excl ≠ some "") :
    excludeMatches excl aid = false ↔ excl ≠ some aid := by
  cases excl with
  | none => simp [excludeMatches]
  | some e =>
    have he : e ≠ "" := fun h => hexcl (by rw [h])
    constructor
    · intro h hEq
      have haid : e = aid := Option.some_inj.mp hEq
      subst haid
      simp [excludeMatches, he] at h
    · intro h
      have haid : aid ≠ e := fun hh => h (by rw [hh])
      simp only [excludeMatches, Bool.and_eq_false_iff, beq_eq_false_iff_ne, ne_eq]
      exact Or.inr haid

/-- The availability loop reports a conflict exactly when some
non-skipped appointment in the list parses to an interval that overlaps
the candidate half-openly (given that every list element parses). -/
theorem availabilityLoop_eq_false_iff (cs ce : Int) (excl : Option String)
    (l : List Appointment) (hl : ∀ a ∈ l, (parseApptStartEnd a).isSome) :
    availabilityLoop cs ce excl l = some false ↔
      ∃ a ∈ l, excludeMatches excl a.id = false ∧
        ∃ q, parseApptStartEnd a = some q ∧ cs < q.2 ∧ ce > q.1 := by
  induction l with
  | nil => simp [availabilityLoop]
  | cons a rest ih =>
    have hrest : ∀ b ∈ rest, (parseApptStartEnd b).isSome :=
      fun b hb => hl b (List.mem_cons_of_mem _ hb)
    have ha : (parseApptStartEnd a).isSome := hl a (List.mem_cons_self _ _)
    obtain ⟨q, hq⟩ := Option.isSome_iff_exists.mp ha
    by_cases hskip : excludeMatches excl a.id = true
    · simp only [availabilityLoop, hskip, if_true]
      rw [ih hrest]
      constructor
      · rintro ⟨b, hb, hbs⟩; exact ⟨b, List.mem_cons_of_mem _ hb, hbs⟩
      · rintro ⟨b, hb, hbe, hbq⟩
        rcases List.mem_cons.mp hb with rfl | hb
        · rw [hskip] at hbe; cases hbe
        · exact ⟨b, hb, hbe, hbq⟩
    · have hskip' : excludeMatches excl a.id = false := by
        cases h : excludeMatches excl a.id with
        | true => exact absurd h hskip
        | false => rfl
      have hunf : availabilityLoop cs ce excl (a :: rest)
          = if cs < q.2 && ce > q.1 then some false else availabilityLoop cs ce excl rest := by
        simp only [availabilityLoop, hskip', Bool.false_eq_true, if_false, hq]
      by_cases hov : cs < q.2 ∧ ce > q.1
      · have hb : (cs < q.2 && ce > q.1) = true := by
          simp only [Bool.and_eq_true, decide_eq_true_eq]
          exact hov
        rw [hunf, hb, if_pos rfl]
        exact iff_of_true rfl ⟨a, List.mem_cons_self _ _, hskip', q, hq, hov.1, hov.2⟩
      · have hb : (cs < q.2 && ce > q.1) = false := by
          have : ¬((cs < q.2 && ce > q.1) = true) := by
            simp only [Bool.and_eq_true, decide_eq_true_eq]
            exact hov
          exact (Bool.not_eq_true _).mp this
        rw [hunf, hb, if_neg (by simp)]
        rw [ih hrest]
        constructor
        · rintro ⟨b, hb', hbs⟩; exact ⟨b, List.mem_cons_of_mem _ hb', hbs⟩
        · rintro ⟨b, hb', hbe, q', hq', hlt, hgt⟩
          rcases List.mem_cons.mp hb' with rfl | hb'
          · rw [hq] at hq'; injection hq' with hqq
            subst hqq
            exact absurd ⟨hlt, hgt⟩ hov
          · exact ⟨b, hb', hbe, q', hq', hlt, hgt⟩

/-! ### C1 -/

/-- C1: for a resource (doctor or patient), a candidate interval and an
optional exclusion id, the availability check reports a conflict exactly
when some fetched same-date appointment other than the excluded one
half-openly overlaps the candidate interval (`candidateStart <
existingEnd` and `candidateEnd > existingStart`); touching endpoints do
not conflict, so back-to-back bookings are available. -/
theorem C1_availability_false_iff_overlap (db : DB) (rid d t : String) (dur : Int)
    (excl : Option String) (s : Int)
    (hexcl : excl ≠ some "")
    (hcand : parseDateTimeMinutes d t = some s)
    (hdoc : ∀ a ∈ getAppointmentsForDoctorOnDate db rid d, (parseApptStartEnd a).isSome)
    (hpat : ∀ a ∈ getAppointmentsForPatientOnDate db rid d, (parseApptStartEnd a).isSome) :
    (is_doctor_available db rid d t dur excl = some false ↔
      ∃ a ∈ getAppointmentsForDoctorOnDate db rid d, excl ≠ some a.id ∧
        ∃ q, parseApptStartEnd a = some q ∧ s < q.2 ∧ s + dur > q.1) ∧
    (is_patient_available db rid d t dur excl = some false ↔
      ∃ a ∈ getAppointmentsForPatientOnDate db rid d, excl ≠ some a.id ∧
        ∃ q, parseApptStartEnd a = some q ∧ s < q.2 ∧ s + dur > q.1) := by
  constructor
  · rw [is_doctor_available, hcand, availabilityLoop_eq_false_iff _ _ _ _ hdoc]
    constructor
    · rintro ⟨a, ha, hae, hq⟩
      exact ⟨a, ha, (excludeMatches_eq_false_iff excl a.id hexcl).mp hae, hq⟩
    · rintro ⟨a, ha, hae, hq⟩
      exact ⟨a, ha, (excludeMatches_eq_false_iff excl a.id hexcl).mpr hae, hq⟩
  · rw [is_patient_available, hcand, availabilityLoop_eq_false_iff _ _ _ _ hpat]
    constructor
    · rintro ⟨a, ha, hae, hq⟩
      exact ⟨a, ha, (excludeMatches_eq_false_iff excl a.id hexcl).mp hae, hq⟩
    · rintro ⟨a, ha, hae, hq⟩
      exact ⟨a, ha, (excludeMatches_eq_false_iff excl a.id hexcl).mpr hae, hq⟩

/-- Witness for C1, at the back-to-back configuration of the spec: the
doctor of `dbOne` is busy 09:00-09:30 and the candidate starts 09:30. -/
theorem C1_availability_false_iff_overlap_witness :
    (is_doctor_available dbOne "D001" "2025-06-01" "09:30" 30 none = some false ↔
      ∃ a ∈ getAppointmentsForDoctorOnDate dbOne "D001" "2025-06-01", (none : Option String) ≠ some a.id ∧
        ∃ q, parseApptStartEnd a = some q ∧
          daysFromCivil 2025 6 1 * 1440 + 570 < q.2 ∧
          daysFromCivil 2025 6 1 * 1440 + 570 + 30 > q.1) ∧
    (is_patient_available dbOne "D001" "2025-06-01" "09:30" 30 none = some false ↔
      ∃ a ∈ getAppointmentsForPatientOnDate dbOne "D001" "2025-06-01", (none : Option String) ≠ some a.id ∧
        ∃ q, parseApptStartEnd a = some q ∧
          daysFromCivil 2025 6 1 * 1440 + 570 < q.2 ∧
          daysFromCivil 2025 6 1 * 1440 + 570 + 30 > q.1) :=
  C1_availability_false_iff_overlap dbOne "D001" "2025-06-01" "09:30" 30 none
    (daysFromCivil 2025 6 1 * 1440 + 570) (by decide) (by decide) (by decide) (by decide)

/-! ### C2, C3, C4: divergences of the booking validators from the spec -/

/-- C2: in `dbOne`, patient P001 is already booked 09:00-09:30 on
2025-06-01 (the patient-availability check reports a conflict), yet the
Create-mode handler books the same patient with the free doctor D002 for
the very same interval instead of rejecting with PatientUnavailable:
`add_appointment` never consults `is_patient_available`. -/
theorem C2_create_mode_omits_patient_availability :
    is_patient_available dbOne "P001" "2025-06-01" "09:00" 30 none = some false ∧
    add_appointment dbOne (daysFromCivil 2025 6 1) "2025-06-01" "09:00" "30" "flu" "P001" "D002"
      = AddResult.booked ⟨"A002", "2025-06-01", "09:00", 30, "flu", "P001", "D002"⟩ :=
  ⟨by decide, by decide⟩

/-- C3: the Update-mode handler accepts the time string `9:30`, which
does not match the 24-hour HH:MM pattern, and persists it instead of
rejecting with InvalidTimeFormat: `edit_appointment` has no time-format
check. -/
theorem C3_update_mode_omits_time_format_check :
    matchesHHMM "9:30" = false ∧
    edit_appointment dbOne (daysFromCivil 2025 6 1) "A001"
        "2025-06-01" "9:30" "30" "checkup" "P001" "D001"
      = EditResult.updated ⟨"A001", "2025-06-01", "9:30", 30, "checkup", "P001", "D001"⟩ :=
  ⟨by decide, by decide⟩

/-- C4: the Update-mode handler performs no existence check on the
referenced patient or doctor: updating A001 to the non-existent patient
P999 (or the non-existent doctor D999) is persisted rather than rejected
with PatientNotFound (resp. DoctorNotFound). -/
theorem C4_update_mode_omits_existence_checks :
    getPatient dbOne "P999" = none ∧ getDoctor dbOne "D999" = none ∧
    edit_appointment dbOne (daysFromCivil 2025 6 1) "A001"
        "2025-06-01" "10:00" "30" "x" "P999" "D001"
      = EditResult.updated ⟨"A001", "2025-06-01", "10:00", 30, "x", "P999", "D001"⟩ ∧
    edit_appointment dbOne (daysFromCivil 2025 6 1) "A001"
        "2025-06-01" "10:00" "30" "x" "P001" "D999"
      = EditResult.updated ⟨"A001", "2025-06-01", "10:00", 30, "x", "P001", "D999"⟩ :=
  ⟨by decide, by decide, by decide, by decide⟩

/-! ### Helper lemmas about Python int parsing and decimal rendering -/

/-- A digit character is not whitespace. -/
theorem digit_not_ws (c : Char) (h : digit? c = true) : isPyWs c = false := by
  simp only [digit?, Bool.and_eq_true, decide_eq_true_eq] at h
  simp only [isPyWs, Bool.or_eq_false_iff, decide_eq_false_iff_not]
  omega

/-- dropWhile is the identity on a list none of whose elements satisfy
the predicate. -/
theorem dropWhile_eq_self_of (p : Char → Bool) (l : List Char)
    (h : ∀ c ∈ l, p c = false) : l.dropWhile p = l := by
  cases l with
  | nil => rfl
  | cons a rest =>
    rw [List.dropWhile_cons, h a (List.mem_cons_self _ _)]
    simp

/-- Stripping whitespace does not change an all-digit list. -/
theorem stripWs_digits (cs : List Char) (h : ∀ c ∈ cs, digit? c) : stripWs cs = cs := by
  have hws : ∀ c ∈ cs, isPyWs c = false := fun c hc => digit_not_ws c (h c hc)
  rw [stripWs, dropWhile_eq_self_of _ _ hws,
    dropWhile_eq_self_of _ _ (fun c hc => hws c (List.mem_reverse.mp hc)), List.reverse_reverse]

/-- On an all-digit tail the underscore-aware digit scanner is a plain fold. -/
theorem digitsUnd_digits (cs : List Char) (h : ∀ c ∈ cs, digit? c) (acc : Nat) :
    digitsUnd cs acc = some (cs.foldl (fun a c => a * 10 + dval c) acc) := by
  induction cs generalizing acc with
  | nil => rfl
  | cons c rest ih =>
    have hc := h c (List.mem_cons_self _ _)
    have hstep : digitsUnd (c :: rest) acc = digitsUnd rest (acc * 10 + dval c) := by
      rw [digitsUnd.eq_def]
      simp [hc]
    rw [hstep, List.foldl_cons]
    exact ih (fun x hx => h x (List.mem_cons_of_mem _ hx)) _

/-- Python `int()` of a non-empty all-digit string is its decimal value. -/
theorem pyInt_mk_digits (cs : List Char) (h1 : cs ≠ []) (h2 : ∀ c ∈ cs, digit? c) :
    pyInt (String.mk cs) = some (natOfDigits cs : Int) := by
  obtain ⟨c, rest, rfl⟩ : ∃ c rest, cs = c :: rest := by
    cases cs with
    | nil => exact absurd rfl h1
    | cons c rest => exact ⟨c, rest, rfl⟩
  have hc : digit? c = true := h2 c (List.mem_cons_self _ _)
  have hplus : c ≠ '+' := by
    intro h; rw [h] at hc; simp [digit?] at hc
  have hminus : c ≠ '-' := by
    intro h; rw [h] at hc; simp [digit?] at hc
  have hstrip : stripWs (String.mk (c :: rest)).data = c :: rest := stripWs_digits _ h2
  rw [pyInt, hstrip]
  simp only [if_neg hplus, if_neg hminus, pyIntCore, if_pos hc]
  rw [digitsUnd_digits rest (fun x hx => h2 x (List.mem_cons_of_mem _ hx)) (dval c)]
  simp [natOfDigits]

/-- The fuel argument of `natDecimalAux` is irrelevant once sufficient. -/
theorem natDecimalAux_stable (f : Nat) : ∀ g n, n < f → n < g →
    natDecimalAux f n = natDecimalAux g n := by
  induction f with
  | zero => intro g n h _; exact absurd h (Nat.not_lt_zero n)
  | succ f ih =>
    intro g n hf hg
    cases g with
    | zero => exact absurd hg (Nat.not_lt_zero n)
    | succ g =>
      by_cases h10 : n < 10
      · simp [natDecimalAux, h10]
      · have hdiv : n / 10 < n := Nat.div_lt_self (by omega) (by norm_num)
        simp only [natDecimalAux, h10, if_false]
        congr 1
        exact ih g (n / 10) (by omega) (by omega)

/-- Recurrence of the decimal rendering for numbers of two or more digits. -/
theorem natDecimal_step (n : Nat) (h : 10 ≤ n) :
    natDecimal n = natDecimal (n / 10) ++ [Nat.digitChar (n % 10)] := by
  have h10 : ¬ n < 10 := by omega
  rw [natDecimal, natDecimalAux]
  simp only [h10, if_false]
  rw [natDecimalAux_stable n (n / 10 + 1) (n / 10)
    (Nat.lt_of_lt_of_le (Nat.div_lt_self (by omega) (by norm_num)) (by omega))
    (Nat.lt_succ_self _)]
  rfl

/-- The decimal rendering is never empty. -/
theorem natDecimal_length_pos (n : Nat) : 0 < (natDecimal n).length := by
  by_cases h : n < 10
  · simp [natDecimal, natDecimalAux, h]
  · rw [natDecimal_step n (by omega)]
    simp

/-- Numbers of value at least 1000 render to at least four digits. -/
theorem natDecimal_length_ge_four (n : Nat) (h : 1000 ≤ n) :
    4 ≤ (natDecimal n).length := by
  have s1 : 100 ≤ n / 10 := (Nat.le_div_iff_mul_le (by norm_num)).mpr (by omega)
  have s2 : 10 ≤ n / 10 / 10 := (Nat.le_div_iff_mul_le (by norm_num)).mpr (by omega)
  rw [natDecimal_step n (by omega), natDecimal_step (n / 10) (by omega),
    natDecimal_step (n / 10 / 10) (by omega)]
  have := natDecimal_length_pos (n / 10 / 10 / 10)
  simp only [List.length_append, List.length_cons, List.length_nil]
  omega

/-- Python's `f"{n:03d}"` leaves values of 1000 and beyond unpadded. -/
theorem pyFormat03d_of_ge_1000 (n : Nat) (h : 1000 ≤ n) :
    pyFormat03d (n : Int) = String.mk (natDecimal n) := by
  have hnn : ¬((n : Int) < 0) := by omega
  rw [pyFormat03d, if_neg hnn, Int.natAbs_ofNat, zfill]
  have hlen : (String.mk (natDecimal n)).length = (natDecimal n).length := rfl
  have h4 : 4 ≤ (natDecimal n).length := natDecimal_length_ge_four n h
  have : 3 - (String.mk (natDecimal n)).length = 0 := by omega
  rw [this, List.replicate_zero]
  cases hmk : String.mk (natDecimal n) with
  | mk data => rfl

/-- Core of the allocator on a well-formed id `p ++ digits`: Python
drops the first character, parses the digits, adds one and zero-pads. -/
theorem generate_id_digits (p : Char) (s : String)
    (h1 : s.data ≠ []) (h2 : ∀ c ∈ s.data, digit? c) :
    generate_id (String.singleton p) (some (String.singleton p ++ s))
      = Except.ok (String.singleton p ++ pyFormat03d ((natOfDigits s.data : Int) + 1)) := by
  have hdata : (String.singleton p ++ s).data = p :: s.data := by
    simp [String.singleton]
  have hne : String.singleton p ++ s ≠ "" := by
    intro h
    have hd := congrArg String.data h
    rw [hdata] at hd
    simp at hd
  rw [generate_id, if_neg hne, hdata]
  simp only [List.drop_one, List.tail_cons]
  rw [pyInt_mk_digits s.data h1 h2]

/-! ### C5 -/

/-- C5: on a well-formed current maximum id — a one-letter prefix
followed by a decimal numeral n — the allocator returns the prefix
followed by n+1 zero-padded to three digits, and with no existing id it
returns the prefix followed by 001. -/
theorem C5_next_id_increments_and_pads (p : Char) (s : String)
    (h1 : s.data ≠ []) (h2 : ∀ c ∈ s.data, digit? c) :
    generate_id (String.singleton p) (some (String.singleton p ++ s))
      = Except.ok (String.singleton p ++ pyFormat03d ((natOfDigits s.data : Int) + 1)) ∧
    generate_id (String.singleton p) none = Except.ok (String.singleton p ++ "001") := by
  refine ⟨generate_id_digits p s h1 h2, ?_⟩
  rw [generate_id]
  have hfmt : pyFormat03d 1 = "001" := by decide
  rw [hfmt]

/-- Witness for C5: from last patient id P007 the next id is P008, and
with no patients the first id is P001. -/
theorem C5_next_id_increments_and_pads_witness :
    generate_id "P" (some "P007") = Except.ok "P008" ∧
    generate_id "P" none = Except.ok "P001" := by
  have h := C5_next_id_increments_and_pads 'P' "007" (by decide) (by decide)
  have e1 : String.singleton 'P' = "P" := by decide
  have e2 : ("P" : String) ++ "007" = "P007" := by decide
  have e3 : pyFormat03d ((natOfDigits ("007" : String).data : Int) + 1) = "008" := by decide
  have e4 : ("P" : String) ++ "008" = "P008" := by decide
  have e5 : ("P" : String) ++ "001" = "P001" := by decide
  rw [e1, e2, e3, e4, e5] at h
  exact h

/-! ### C10 -/

/-- C10: when the incremented numeric suffix reaches 1000, the allocator
still increments by exactly one but emits the unpadded decimal, so the
suffix exceeds three digits and the whole id exceeds the four-character
id column of the data model. -/
theorem C10_overflow_breaks_id_format (p : Char) (s : String)
    (h1 : s.data ≠ []) (h2 : ∀ c ∈ s.data, digit? c)
    (hbig : 1000 ≤ natOfDigits s.data + 1) :
    generate_id (String.singleton p) (some (String.singleton p ++ s))
      = Except.ok (String.singleton p ++ String.mk (natDecimal (natOfDigits s.data + 1))) ∧
    3 < (natDecimal (natOfDigits s.data + 1)).length ∧
    appointmentIdColumnLength
      < (String.singleton p ++ String.mk (natDecimal (natOfDigits s.data + 1))).length := by
  have hcast : ((natOfDigits s.data : Int) + 1) = ((natOfDigits s.data + 1 : Nat) : Int) := by
    push_cast; ring
  have hfmt : pyFormat03d ((natOfDigits s.data : Int) + 1)
      = String.mk (natDecimal (natOfDigits s.data + 1)) := by
    rw [hcast, pyFormat03d_of_ge_1000 _ hbig]
  have h4 : 4 ≤ (natDecimal (natOfDigits s.data + 1)).length :=
    natDecimal_length_ge_four _ hbig
  refine ⟨?_, by omega, ?_⟩
  · rw [generate_id_digits p s h1 h2, hfmt]
  · have hlen : (String.singleton p ++ String.mk (natDecimal (natOfDigits s.data + 1))).length
        = 1 + (natDecimal (natOfDigits s.data + 1)).length := by
      simp [String.singleton]
    rw [appointmentIdColumnLength, hlen]
    omega

/-- Witness for C10: from last id A999 the allocator returns A1000, a
five-character id with a four-digit suffix. -/
theorem C10_overflow_breaks_id_format_witness :
    generate_id "A" (some "A999") = Except.ok "A1000" ∧
    3 < (natDecimal 1000).length ∧
    appointmentIdColumnLength < ("A1000" : String).length := by
  have h := C10_overflow_breaks_id_format 'A' "999" (by decide) (by decide) (by decide)
  have e0 : String.singleton 'A' = "A" := by decide
  rw [e0] at h
  have e1 : natOfDigits ("999" : String).data + 1 = 1000 := by decide
  rw [e1] at h
  have e2 : ("A" : String) ++ "999" = "A999" := by decide
  have e3 : ("A" : String) ++ String.mk (natDecimal 1000) = "A1000" := by decide
  rw [e2, e3] at h
  exact h

/-! ### C6 -/

/-- C6 counterexample: with the malformed current maximum id AXYZ the
allocator raises an uncaught ValueError instead of a typed
AllocationError, and the exception escapes the whole Create-mode booking
operation (modelled by the `error` outcome) rather than being recovered
as a typed rejection at the service boundary. -/
theorem C6_counterexample_raw_exception_escapes :
    generate_id "A" (some "AXYZ") = Except.error () ∧
    add_appointment dbMalformedId (daysFromCivil 2025 6 1)
        "2025-06-01" "09:00" "30" "x" "P001" "D001"
      = AddResult.error :=
  ⟨by decide, by decide⟩

/-- C6 amended: on a malformed current maximum id (non-numeric suffix)
the allocator returns no id at all — it fails with an unhandled
ValueError, which propagates as a raw exception. -/
theorem C6_amended_allocator_raises (pref last : String)
    (h1 : last ≠ "") (h2 : pyInt (String.mk (last.data.drop 1)) = none) :
    generate_id pref (some last) = Except.error () := by
  rw [generate_id, if_neg h1, h2]

/-- Witness for the amended C6 at the malformed id AXYZ. -/
theorem C6_amended_allocator_raises_witness :
    generate_id "A" (some "AXYZ") = Except.error () :=
  C6_amended_allocator_raises "A" "AXYZ" (by decide) (by decide)

/-! ### C7 -/

/-- C7: on a non-empty but malformed date or time, the availability
checker itself raises a parse error (`none`, a hard failure in the real
booking path), while the advisory endpoint swallows it and answers
doctor unavailable — and patient unavailable whenever a truthy patient
id is supplied — instead of propagating the error. -/
theorem C7_advisory_endpoint_swallows_parse_errors (db : DB) (did : String)
    (patient_id : Option String) (d t : String) (duration : Option String) (dur : Int)
    (hdid : did ≠ "") (hd : d ≠ "") (ht : t ≠ "")
    (hdur : resolveDuration duration = some dur)
    (hmal : parseDateTimeMinutes d t = none) :
    is_doctor_available db did d t dur none = none ∧
    check_availability db (some did) patient_id (some d) (some t) duration
      = CheckAvailResult.ok false (!pyTruthy patient_id) := by
  have hdoc : is_doctor_available db did d t dur none = none := by
    rw [is_doctor_available, hmal]
  have hpat : ∀ pid : String, is_patient_available db pid d t dur none = none := by
    intro pid; rw [is_patient_available, hmal]
  refine ⟨hdoc, ?_⟩
  have htr : (!pyTruthy (some d) || !pyTruthy (some t)) = false := by
    simp [pyTruthy, hd, ht]
  rw [check_availability, htr]
  simp only [Bool.false_eq_true, if_false, hdur]
  cases patient_id with
  | none => simp [hdid, hdoc, pyTruthy]
  | some pid =>
    by_cases hpid : pid = ""
    · subst hpid; simp [hdid, hdoc, pyTruthy]
    · simp [hdid, hpid, hdoc, hpat pid, pyTruthy]

/-- Witness for C7: month 13 does not parse; the endpoint still answers
with availability booleans (both false) instead of an error. -/
theorem C7_advisory_endpoint_swallows_parse_errors_witness :
    is_doctor_available dbEmpty "D001" "2025-13-01" "09:00" 30 none = none ∧
    check_availability dbEmpty (some "D001") (some "P001")
        (some "2025-13-01") (some "09:00") none
      = CheckAvailResult.ok false (!pyTruthy (some "P001")) :=
  C7_advisory_endpoint_swallows_parse_errors dbEmpty "D001" (some "P001")
    "2025-13-01" "09:00" none 30 (by decide) (by decide) (by decide) (by decide) (by decide)

/-! ### C9 -/

/-- C9: the advisory endpoint silently substitutes a default duration of
30 minutes when the duration field is absent — behaving exactly as if
the string 30 had been supplied — and rejects with invalid_duration only
a present duration that `int()` cannot parse. -/
theorem C9_missing_duration_defaults_to_30 (db : DB) (doctor_id patient_id : Option String)
    (d t : String) (hd : d ≠ "") (ht : t ≠ "") :
    check_availability db doctor_id patient_id (some d) (some t) none
      = check_availability db doctor_id patient_id (some d) (some t) (some "30") ∧
    ∀ sdur : String, pyInt sdur = none →
      check_availability db doctor_id patient_id (some d) (some t) (some sdur)
        = CheckAvailResult.badRequest "invalid_duration" := by
  have htr : (!pyTruthy (some d) || !pyTruthy (some t)) = false := by
    simp [pyTruthy, hd, ht]
  constructor
  · rw [check_availability, check_availability, htr]
    simp only [Bool.false_eq_true, if_false]
    have h30 : resolveDuration (some "30") = some 30 := by decide
    have hnone : resolveDuration none = some 30 := rfl
    rw [hnone, h30]
  · intro sdur hs
    rw [check_availability, htr]
    simp only [Bool.false_eq_true, if_false]
    have hres : resolveDuration (some sdur) = none := hs
    rw [hres]

/-- Witness for C9: an absent duration behaves like the string 30 and a
non-integer duration string is a 400 invalid_duration. -/
theorem C9_missing_duration_defaults_to_30_witness :
    check_availability dbEmpty (some "D001") (some "P001")
        (some "2025-06-01") (some "09:00") none
      = check_availability dbEmpty (some "D001") (some "P001")
          (some "2025-06-01") (some "09:00") (some "30") ∧
    check_availability dbEmpty (some "D001") (some "P001")
        (some "2025-06-01") (some "09:00") (some "abc")
      = CheckAvailResult.badRequest "invalid_duration" := by
  have h := C9_missing_duration_defaults_to_30 dbEmpty (some "D001") (some "P001")
    "2025-06-01" "09:00" (by decide) (by decide)
  exact ⟨h.1, h.2 "abc" (by decide)⟩

/-! ### C8 -/

/-- A loop verdict of no-conflict means no non-skipped parseable element
of the list overlaps the candidate. -/
theorem availabilityLoop_eq_true_not_overlap (cs ce : Int) (excl : Option String)
    (l : List Appointment) :
    availabilityLoop cs ce excl l = some true →
    ∀ a ∈ l, excludeMatches excl a.id = false →
      ∀ q, parseApptStartEnd a = some q → ¬(cs < q.2 ∧ ce > q.1) := by
  induction l with
  | nil => intro _ a ha; cases ha
  | cons a rest ih =>
    intro h b hb hbe q hq hov
    by_cases hskip : excludeMatches excl a.id = true
    · simp only [availabilityLoop, hskip, if_true] at h
      rcases List.mem_cons.mp hb with rfl | hbrest
      · rw [hskip] at hbe; cases hbe
      · exact ih h b hbrest hbe q hq hov
    · have hskip' : excludeMatches excl a.id = false := by
        cases hx : excludeMatches excl a.id with
        | true => exact absurd hx hskip
        | false => rfl
      cases hpa : parseApptStartEnd a with
      | none =>
        simp only [availabilityLoop, hskip', Bool.false_eq_true, if_false, hpa] at h
        exact Option.noConfusion h
      | some q' =>
        simp only [availabilityLoop, hskip', Bool.false_eq_true, if_false, hpa] at h
        cases hov' : (cs < q'.2 && ce > q'.1) with
        | true => rw [hov'] at h; simp at h
        | false =>
          rw [hov'] at h
          simp only [Bool.false_eq_true, if_false] at h
          rcases List.mem_cons.mp hb with rfl | hbrest
          · rw [hpa] at hq; injection hq with hqq
            rw [← hqq] at hov
            have hcontra : (cs < q'.2 && ce > q'.1) = true := by
              simp only [Bool.and_eq_true, decide_eq_true_eq]
              exact hov
            rw [hov'] at hcontra; cases hcontra
          · exact ih h b hbrest hbe q hq hov

/-- The loop accepts any number of copies of a single non-overlapping
appointment. -/
theorem availabilityLoop_replicate (cs ce : Int) (a : Appointment) (q : Int × Int)
    (hq : parseApptStartEnd a = some q) (hno : (cs < q.2 && ce > q.1) = false) :
    ∀ n, availabilityLoop cs ce none (List.replicate n a) = some true := by
  intro n
  induction n with
  | zero => rfl
  | succ n ih =>
    rw [List.replicate_succ]
    simp only [availabilityLoop, excludeMatches, Bool.false_eq_true, if_false, hq, hno]
    exact ih

/-- C8: the patient-side fetch is the same-date filter capped at 100
results while the doctor-side fetch is the uncapped filter, so a patient
availability verdict of true only guarantees no overlap among the (at
most 100) fetched appointments: in `dbCapped` the patient's 101st
same-date appointment overlaps the candidate, yet the check answers
available. -/
theorem C8_patient_fetch_capped_at_100 :
    (∀ db pid d, getAppointmentsForPatientOnDate db pid d
      = (db.appointments.filter (fun a => a.patient_id == pid && a.date == d)).take 100) ∧
    (∀ db did d, getAppointmentsForDoctorOnDate db did d
      = db.appointments.filter (fun a => a.doctor_id == did && a.date == d)) ∧
    (∀ db pid d t dur excl, is_patient_available db pid d t dur excl = some true →
      ∀ a ∈ getAppointmentsForPatientOnDate db pid d, excludeMatches excl a.id = false →
        ∀ q s, parseDateTimeMinutes d t = some s → parseApptStartEnd a = some q →
          ¬(s < q.2 ∧ s + dur > q.1)) ∧
    (is_patient_available dbCapped "P001" "2025-06-01" "00:00" 30 none = some true ∧
      ∃ a ∈ dbCapped.appointments, a.patient_id = "P001" ∧ a.date = "2025-06-01" ∧
        ∃ q, parseApptStartEnd a = some q ∧
          daysFromCivil 2025 6 1 * 1440 < q.2 ∧ daysFromCivil 2025 6 1 * 1440 + 30 > q.1) := by
  refine ⟨fun _ _ _ => rfl, fun _ _ _ => rfl, ?_, ?_, ?_⟩
  · intro db pid d t dur excl htrue a ha hae q s hs hq hov
    rw [is_patient_available, hs] at htrue
    exact availabilityLoop_eq_true_not_overlap s (s + dur) excl _ htrue a ha hae q hq hov
  · have hS : parseDateTimeMinutes "2025-06-01" "00:00"
        = some (daysFromCivil 2025 6 1 * 1440) := by decide
    have hfetch : getAppointmentsForPatientOnDate dbCapped "P001" "2025-06-01"
        = List.replicate 100 apptLate := by
      rw [getAppointmentsForPatientOnDate]
      show ((List.replicate 100 apptLate ++ [apptMidnight]).filter
        (fun a => a.patient_id == "P001" && a.date == "2025-06-01")).take 100 = _
      rw [List.filter_append]
      have hf1 : (List.replicate 100 apptLate).filter
          (fun a => a.patient_id == "P001" && a.date == "2025-06-01")
          = List.replicate 100 apptLate :=
        List.filter_eq_self.mpr (fun a ha => by rw [List.eq_of_mem_replicate ha]; decide)
      have hf2 : ([apptMidnight] : List Appointment).filter
          (fun a => a.patient_id == "P001" && a.date == "2025-06-01") = [apptMidnight] := by
        decide
      rw [hf1, hf2]
      have hlen : (List.replicate 100 apptLate).length = 100 := List.length_replicate _ _
      exact List.take_left' hlen
    have hunf : is_patient_available dbCapped "P001" "2025-06-01" "00:00" 30 none
        = availabilityLoop (daysFromCivil 2025 6 1 * 1440) (daysFromCivil 2025 6 1 * 1440 + 30)
            none (getAppointmentsForPatientOnDate dbCapped "P001" "2025-06-01") := by
      rw [is_patient_available, hS]
    rw [hunf, hfetch]
    exact availabilityLoop_replicate _ _ apptLate
      (daysFromCivil 2025 6 1 * 1440 + 1439, daysFromCivil 2025 6 1 * 1440 + 1440)
      (by decide) (by decide) 100
  · refine ⟨apptMidnight, ?_, rfl, rfl,
      (daysFromCivil 2025 6 1 * 1440, daysFromCivil 2025 6 1 * 1440 + 30),
      by decide, by decide, by decide⟩
    show apptMidnight ∈ List.replicate 100 apptLate ++ [apptMidnight]
    exact List.mem_append_right _ (List.mem_singleton.mpr rfl)

/-- Witness for C8: in `dbSolo` the patient check answers available, and
the theorem instantiated at the single fetched appointment yields the
no-overlap guarantee for it. -/
theorem C8_patient_fetch_capped_at_100_witness :
    is_patient_available dbSolo "P001" "2025-06-01" "00:00" 30 none = some true ∧
    ¬(daysFromCivil 2025 6 1 * 1440 < daysFromCivil 2025 6 1 * 1440 + 1440 ∧
      daysFromCivil 2025 6 1 * 1440 + 30 > daysFromCivil 2025 6 1 * 1440 + 1439) :=
  ⟨by decide,
    C8_patient_fetch_capped_at_100.2.2.1 dbSolo "P001" "2025-06-01" "00:00" 30 none
      (by decide) apptLate (by decide) (by decide)
      (daysFromCivil 2025 6 1 * 1440 + 1439, daysFromCivil 2025 6 1 * 1440 + 1440)
      (daysFromCivil 2025 6 1 * 1440) (by decide) (by decide)⟩

end MedaSync
